import Mathlib

/-!
Verification of the PRIMA C dispatch layer (`src/c/prima.c`): a shallow
embedding of the problem/options/result data model, the validator
`prima_check_problem`, the result lifecycle (`prima_init_result`,
`prima_free_result`), the dispatcher `prima_minimize` and the status
translator `prima_get_rc_string`, together with theorems about them.

Modelling conventions:
- C `double` values are modelled by the inductive type `FP` (a rational
  payload plus the NaN and infinity sentinels the code uses); no claim
  needs floating-point arithmetic, only sentinel (non-)equality.
- C pointers are modelled by `Option`: `none` is the null pointer.
  Heap buffers live in an explicit `Heap` (a list of optional blocks);
  a buffer pointer is an index (`Addr`) into the heap, so distinctness
  of allocations ("no aliasing") is the distinctness of the indices.
- `malloc`/`calloc` failure is modelled by boolean oracles passed to the
  functions that allocate.
- The five Fortran solver engines (`bobyqa_c`, ..., declared but not
  defined in `prima.c`) are opaque collaborators: `prima_minimize` takes
  a function `Engine → EngineOutcome` describing their observable effect
  and records the list of engines invoked.
-/

namespace Prima

/-- Model of a C `double` as far as this layer observes it: a rational
payload or one of the sentinels NaN, `-INFINITY`, `+INFINITY`. -/
inductive FP where
  | nan : FP
  | neginf : FP
  | posinf : FP
  | num : ℚ → FP
deriving DecidableEq, Repr

/-- Heap addresses. -/
abbrev Addr := Nat

/-- The heap: a list of blocks; `none` marks a freed or never-allocated slot. -/
abbrev Heap := List (Option (List FP))

/-- Read the block at an address; out-of-range or freed reads give `none`. -/
def Heap.read (h : Heap) (a : Addr) : Option (List FP) :=
  List.getD h a none

/-- Allocate a fresh block at the end of the heap. -/
def Heap.alloc (h : Heap) (b : List FP) : Heap :=
  h ++ [some b]

/-- The address `Heap.alloc` hands out: the current heap length. -/
def Heap.fresh (h : Heap) : Addr :=
  h.length

/-- Free the block at an address. -/
def Heap.free (h : Heap) (a : Addr) : Heap :=
  h.set a none

/-! Status codes (`prima_rc_t`) and algorithm identifiers
(`prima_algorithm_t`).  Modelled from the spec: the enumerations live in
the header `prima/prima.h`, which is not part of the visible sources;
the spec describes both as closed integer enumerations, so the names
below carry distinct integer values (the switch in `prima_get_rc_string`
requires all `prima_rc_t` values to be pairwise distinct). -/

abbrev PRIMA_SMALL_TR_RADIUS : Int := 0
abbrev PRIMA_FTARGET_ACHIEVED : Int := 1
abbrev PRIMA_TRSUBP_FAILED : Int := 2
abbrev PRIMA_MAXFUN_REACHED : Int := 3
abbrev PRIMA_MAXTR_REACHED : Int := 20
abbrev PRIMA_NAN_INF_X : Int := -1
abbrev PRIMA_NAN_INF_F : Int := -2
abbrev PRIMA_NAN_INF_MODEL : Int := -3
abbrev PRIMA_NO_SPACE_BETWEEN_BOUNDS : Int := 6
abbrev PRIMA_DAMAGING_ROUNDING : Int := 7
abbrev PRIMA_ZERO_LINEAR_CONSTRAINT : Int := 8
abbrev PRIMA_CALLBACK_TERMINATE : Int := 30
abbrev PRIMA_INVALID_INPUT : Int := 100
abbrev PRIMA_ASSERTION_FAILS : Int := 101
abbrev PRIMA_VALIDATION_FAILS : Int := 102
abbrev PRIMA_MEMORY_ALLOCATION_FAILS : Int := 103
abbrev PRIMA_NULL_OPTIONS : Int := 110
abbrev PRIMA_NULL_PROBLEM : Int := 111
abbrev PRIMA_NULL_X0 : Int := 112
abbrev PRIMA_NULL_RESULT : Int := 113
abbrev PRIMA_NULL_FUNCTION : Int := 114
abbrev PRIMA_PROBLEM_SOLVER_MISMATCH_NONLINEAR_CONSTRAINTS : Int := 115
abbrev PRIMA_PROBLEM_SOLVER_MISMATCH_LINEAR_CONSTRAINTS : Int := 116
abbrev PRIMA_PROBLEM_SOLVER_MISMATCH_BOUNDS : Int := 117

abbrev PRIMA_BOBYQA : Int := 0
abbrev PRIMA_COBYLA : Int := 1
abbrev PRIMA_LINCOA : Int := 2
abbrev PRIMA_NEWUOA : Int := 3
abbrev PRIMA_UOBYQA : Int := 4

abbrev PRIMA_MSG_NONE : Int := 0

/-- `#define MAXFUN_DIM_DFT 500` (prima.c line 10). -/
abbrev MAXFUN_DIM_DFT : Int := 500

/-- `prima_problem_t`.  Function pointers (`calfun`, `calcfc`) are modelled
by their presence bit only; buffer pointers (`x0`, `xl`, `xu`, the linear
systems, `nlconstr0`) are optional heap addresses. -/
structure Problem where
  n : Int
  x0 : Option Addr
  calfun : Bool
  calcfc : Bool
  xl : Option Addr
  xu : Option Addr
  m_nlcon : Int
  nlconstr0 : Option Addr
  m_ineq : Int
  Aineq : Option Addr
  bineq : Option Addr
  m_eq : Int
  Aeq : Option Addr
  beq : Option Addr
  f0 : FP
deriving DecidableEq, Repr

/-- `prima_options_t`.  The opaque user `data` pointer is an optional
address; the monitor `callback` pointer is a presence bit. -/
structure Options where
  maxfun : Int
  rhobeg : FP
  rhoend : FP
  iprint : Int
  ftarget : FP
  npt : Int
  data : Option Addr
  callback : Bool
deriving DecidableEq, Repr

/-- `prima_result_t`.  The field `m_nlcon` models the C field `_m_nlcon`
(the recorded nonlinear-constraint count). -/
structure Result where
  x : Option Addr
  f : FP
  cstrv : FP
  nf : Int
  nlconstr : Option Addr
  m_nlcon : Int
  status : Int
  message : Option String
deriving DecidableEq, Repr

/-- The Problem state after `memset(problem, 0, sizeof(prima_problem_t))`. -/
def zeroProblem : Problem :=
  { n := 0, x0 := none, calfun := false, calcfc := false, xl := none, xu := none,
    m_nlcon := 0, nlconstr0 := none, m_ineq := 0, Aineq := none, bineq := none,
    m_eq := 0, Aeq := none, beq := none, f0 := FP.num 0 }

/-- The Options state after `memset` plus the explicit assignments of
`prima_init_options` (prima.c lines 16-22). -/
def defaultOptions : Options :=
  { maxfun := 0, rhobeg := FP.nan, rhoend := FP.nan, iprint := PRIMA_MSG_NONE,
    ftarget := FP.neginf, npt := 0, data := none, callback := false }

/-- The Result state after `memset(result, 0, sizeof(prima_result_t))` and
the explicit `result->f = 0.0; result->cstrv = 0.0` (prima.c lines 94-96). -/
def zeroResult : Result :=
  { x := none, f := FP.num 0, cstrv := FP.num 0, nf := 0, nlconstr := none,
    m_nlcon := 0, status := 0, message := none }

/-- `prima_init_options` (prima.c lines 12-27).  The argument is the
pointee when the pointer is non-null; the output pairs the returned
status with the new pointee. -/
def prima_init_options (options : Option Options) : Int × Option Options :=
  match options with
  | some _ => (0, some defaultOptions)
  | none => (PRIMA_NULL_OPTIONS, none)

/-- `prima_init_problem` (prima.c lines 29-40). -/
def prima_init_problem (problem : Option Problem) (n : Int) : Int × Option Problem :=
  match problem with
  | some _ => (0, some { zeroProblem with n := n, f0 := FP.nan })
  | none => (PRIMA_NULL_PROBLEM, none)

/-- The nonlinear-constraint presence test of prima.c line 68:
`problem->calcfc || problem->nlconstr0 || problem->m_nlcon > 0`. -/
def hasNonlinear (p : Problem) : Bool :=
  p.calcfc || p.nlconstr0.isSome || decide (p.m_nlcon > 0)

/-- The linear-constraint presence test of prima.c line 71:
`m_ineq > 0 || m_eq > 0 || Aineq || bineq || Aeq || beq`. -/
def hasLinear (p : Problem) : Bool :=
  decide (p.m_ineq > 0) || decide (p.m_eq > 0) ||
    p.Aineq.isSome || p.bineq.isSome || p.Aeq.isSome || p.beq.isSome

/-- The bounds presence test of prima.c line 74: `problem->xl || problem->xu`. -/
def hasBounds (p : Problem) : Bool :=
  p.xl.isSome || p.xu.isSome

/-- Output of `prima_check_problem`: the returned status together with the
(possibly updated) pointees of the `problem` and `options` arguments. -/
structure CheckOut where
  rc : Int
  problem : Option Problem
  options : Option Options
deriving DecidableEq, Repr

/-- `prima_check_problem` (prima.c lines 62-88). -/
def prima_check_problem (problem : Option Problem) (options : Option Options)
    (use_constr : Bool) (algorithm : Int) : CheckOut :=
  match problem with
  | none => { rc := PRIMA_NULL_PROBLEM, problem := none, options := options }
  | some p =>
    if algorithm != PRIMA_COBYLA && hasNonlinear p then
      { rc := PRIMA_PROBLEM_SOLVER_MISMATCH_NONLINEAR_CONSTRAINTS,
        problem := some p, options := options }
    else if (algorithm != PRIMA_COBYLA && algorithm != PRIMA_LINCOA) && hasLinear p then
      { rc := PRIMA_PROBLEM_SOLVER_MISMATCH_LINEAR_CONSTRAINTS,
        problem := some p, options := options }
    else if (algorithm != PRIMA_COBYLA && algorithm != PRIMA_LINCOA &&
             algorithm != PRIMA_BOBYQA) && hasBounds p then
      { rc := PRIMA_PROBLEM_SOLVER_MISMATCH_BOUNDS,
        problem := some p, options := options }
    else
      match options with
      | none => { rc := PRIMA_NULL_OPTIONS, problem := some p, options := none }
      | some o =>
        if p.x0.isNone then
          { rc := PRIMA_NULL_X0, problem := some p, options := some o }
        else if (use_constr && !p.calcfc) || (!use_constr && !p.calfun) then
          { rc := PRIMA_NULL_FUNCTION, problem := some p, options := some o }
        else
          let o1 := if o.maxfun = 0 then { o with maxfun := MAXFUN_DIM_DFT * p.n } else o
          let o2 := if o1.npt = 0 then { o1 with npt := 2 * p.n + 1 } else o1
          { rc := 0, problem := some p, options := some o2 }

/-- Output of `prima_init_result`: the returned status, the new pointee of
the `result` argument, and the heap after the allocations. -/
structure InitResultOut where
  rc : Int
  result : Option Result
  heap : Heap
deriving DecidableEq, Repr

/-- `prima_init_result` (prima.c lines 90-115).  `xAllocOk` and
`nlAllocOk` are the success oracles for the `malloc` of the solution
buffer and the `calloc` of the nonlinear-constraint buffer.  The
`memcpy` from `x0` is modelled by allocating the copied contents
directly; a `calloc` is an allocation of a zero-filled block. -/
def prima_init_result (heap : Heap) (xAllocOk nlAllocOk : Bool)
    (result : Option Result) (problem : Option Problem) : InitResultOut :=
  match result with
  | none => { rc := PRIMA_NULL_RESULT, result := none, heap := heap }
  | some _ =>
    match problem with
    | none => { rc := PRIMA_NULL_PROBLEM, result := some zeroResult, heap := heap }
    | some p =>
      match p.x0 with
      | none => { rc := PRIMA_NULL_X0, result := some zeroResult, heap := heap }
      | some a0 =>
        if !xAllocOk then
          { rc := PRIMA_MEMORY_ALLOCATION_FAILS, result := some zeroResult, heap := heap }
        else
          let xs := (Heap.read heap a0).getD []
          let heap1 := Heap.alloc heap (xs.take p.n.toNat)
          let r1 := { zeroResult with x := some (Heap.fresh heap) }
          if p.m_nlcon > 0 then
            if !nlAllocOk then
              { rc := PRIMA_MEMORY_ALLOCATION_FAILS, result := some r1, heap := heap1 }
            else
              { rc := 0,
                result := some { r1 with nlconstr := some (Heap.fresh heap1) },
                heap := Heap.alloc heap1 (List.replicate p.m_nlcon.toNat (FP.num 0)) }
          else
            { rc := 0, result := some r1, heap := heap1 }

/-- Output of `prima_free_result`: the returned status, the new pointee of
the `result` argument, and the heap after the frees. -/
structure FreeOut where
  rc : Int
  result : Option Result
  heap : Heap
deriving DecidableEq, Repr

/-- `prima_free_result` (prima.c lines 117-136). -/
def prima_free_result (heap : Heap) (result : Option Result) : FreeOut :=
  match result with
  | none => { rc := PRIMA_NULL_RESULT, result := none, heap := heap }
  | some r =>
    let step1 : Result × Heap :=
      match r.nlconstr with
      | some a => ({ r with nlconstr := none, m_nlcon := 0 }, Heap.free heap a)
      | none => (r, heap)
    let step2 : Result × Heap :=
      match step1.1.x with
      | some a => ({ step1.1 with x := none }, Heap.free step1.2 a)
      | none => step1
    { rc := 0, result := some step2.1, heap := step2.2 }

/-- `prima_get_rc_string` (prima.c lines 184-239). -/
def prima_get_rc_string (rc : Int) : String :=
  if rc = PRIMA_SMALL_TR_RADIUS then "Trust region radius reaches its lower bound"
  else if rc = PRIMA_FTARGET_ACHIEVED then "The target function value is reached"
  else if rc = PRIMA_TRSUBP_FAILED then "A trust region step failed to reduce the model"
  else if rc = PRIMA_MAXFUN_REACHED then "Maximum number of function evaluations reached"
  else if rc = PRIMA_MAXTR_REACHED then "Maximum number of trust region iterations reached"
  else if rc = PRIMA_NAN_INF_X then "The input X contains NaN of Inf"
  else if rc = PRIMA_NAN_INF_F then "The objective or constraint functions return NaN or +Inf"
  else if rc = PRIMA_NAN_INF_MODEL then "NaN or Inf occurs in the model"
  else if rc = PRIMA_NO_SPACE_BETWEEN_BOUNDS then "No space between bounds"
  else if rc = PRIMA_DAMAGING_ROUNDING then "Rounding errors are becoming damaging"
  else if rc = PRIMA_ZERO_LINEAR_CONSTRAINT then "One of the linear constraints has a zero gradient"
  else if rc = PRIMA_CALLBACK_TERMINATE then "Callback function requested termination of optimization"
  else if rc = PRIMA_INVALID_INPUT then "Invalid input"
  else if rc = PRIMA_ASSERTION_FAILS then "Assertion fails"
  else if rc = PRIMA_VALIDATION_FAILS then "Validation fails"
  else if rc = PRIMA_MEMORY_ALLOCATION_FAILS then "Memory allocation fails"
  else if rc = PRIMA_NULL_OPTIONS then "NULL options"
  else if rc = PRIMA_NULL_PROBLEM then "NULL problem"
  else if rc = PRIMA_NULL_X0 then "NULL x0"
  else if rc = PRIMA_NULL_RESULT then "NULL result"
  else if rc = PRIMA_NULL_FUNCTION then "NULL function"
  else if rc = PRIMA_PROBLEM_SOLVER_MISMATCH_NONLINEAR_CONSTRAINTS then
    "Nonlinear constraints were provided for an algorithm that cannot handle them"
  else if rc = PRIMA_PROBLEM_SOLVER_MISMATCH_LINEAR_CONSTRAINTS then
    "Linear constraints were provided for an algorithm that cannot handle them"
  else if rc = PRIMA_PROBLEM_SOLVER_MISMATCH_BOUNDS then
    "Bounds were provided for an algorithm that cannot handle them"
  else "Invalid return code"

/-- The five Fortran solver engines declared in prima.c lines 43-60. -/
inductive Engine where
  | bobyqa_c : Engine
  | cobyla_c : Engine
  | lincoa_c : Engine
  | newuoa_c : Engine
  | uobyqa_c : Engine
deriving DecidableEq, Repr

/-- The observable effect of one engine call: the `info` status written
through the output parameter, the values written to `*f`, `*cstrv`,
`*nf`, and the contents the engine leaves in the solution buffer and the
nonlinear-constraint buffer. -/
structure EngineOutcome where
  info : Int
  f : FP
  cstrv : FP
  nf : Int
  xOut : List FP
  nlconstrOut : List FP
deriving DecidableEq, Repr

/-- Write a list of values over the block a (possibly null) pointer
designates; writing through a null pointer is a no-op here (the C code
never does it on a reachable path). -/
def writeBuf (h : Heap) (a : Option Addr) (xs : List FP) : Heap :=
  match a with
  | some a => h.set a (some xs)
  | none => h

/-- Output of `prima_minimize`: the returned status, the pointees of the
three pointer arguments on return, the final heap, and the list of
solver engines invoked (in order). -/
structure MinimizeOut where
  rc : Int
  problem : Option Problem
  options : Option Options
  result : Option Result
  heap : Heap
  calls : List Engine
deriving DecidableEq, Repr

/-- `prima_minimize` (prima.c lines 139-182).  The `engine` argument
gives each opaque Fortran engine's observable outcome; `calls` records
every engine invocation. -/
def prima_minimize (engine : Engine → EngineOutcome) (heap : Heap)
    (xAllocOk nlAllocOk : Bool) (algorithm : Int) (problem : Option Problem)
    (options : Option Options) (result : Option Result) : MinimizeOut :=
  let use_constr := algorithm == PRIMA_COBYLA
  let chk := prima_check_problem problem options use_constr algorithm
  if chk.rc = 0 then
    let ir := prima_init_result heap xAllocOk nlAllocOk result chk.problem
    if ir.rc = 0 then
      match ir.result with
      | none =>
        -- unreachable: a zero status from prima_init_result implies a
        -- result pointee is present
        { rc := PRIMA_NULL_RESULT, problem := chk.problem, options := chk.options,
          result := none, heap := ir.heap, calls := [] }
      | some r =>
        if algorithm = PRIMA_BOBYQA then
          let out := engine Engine.bobyqa_c
          let r2 := { r with
            f := out.f, nf := out.nf, status := out.info,
            message := some (prima_get_rc_string out.info) }
          { rc := out.info, problem := chk.problem, options := chk.options,
            result := some r2, heap := writeBuf ir.heap r.x out.xOut,
            calls := [Engine.bobyqa_c] }
        else if algorithm = PRIMA_COBYLA then
          let out := engine Engine.cobyla_c
          let r2 := { r with
            f := out.f, cstrv := out.cstrv, nf := out.nf, status := out.info,
            message := some (prima_get_rc_string out.info) }
          { rc := out.info, problem := chk.problem, options := chk.options,
            result := some r2,
            heap := writeBuf (writeBuf ir.heap r.x out.xOut) r.nlconstr out.nlconstrOut,
            calls := [Engine.cobyla_c] }
        else if algorithm = PRIMA_LINCOA then
          let out := engine Engine.lincoa_c
          let r2 := { r with
            f := out.f, cstrv := out.cstrv, nf := out.nf, status := out.info,
            message := some (prima_get_rc_string out.info) }
          { rc := out.info, problem := chk.problem, options := chk.options,
            result := some r2, heap := writeBuf ir.heap r.x out.xOut,
            calls := [Engine.lincoa_c] }
        else if algorithm = PRIMA_NEWUOA then
          let out := engine Engine.newuoa_c
          let r2 := { r with
            f := out.f, nf := out.nf, status := out.info,
            message := some (prima_get_rc_string out.info) }
          { rc := out.info, problem := chk.problem, options := chk.options,
            result := some r2, heap := writeBuf ir.heap r.x out.xOut,
            calls := [Engine.newuoa_c] }
        else if algorithm = PRIMA_UOBYQA then
          let out := engine Engine.uobyqa_c
          let r2 := { r with
            f := out.f, nf := out.nf, status := out.info,
            message := some (prima_get_rc_string out.info) }
          { rc := out.info, problem := chk.problem, options := chk.options,
            result := some r2, heap := writeBuf ir.heap r.x out.xOut,
            calls := [Engine.uobyqa_c] }
        else
          -- the switch default: return PRIMA_INVALID_INPUT at once, so
          -- result->status and result->message are not assigned
          { rc := PRIMA_INVALID_INPUT, problem := chk.problem, options := chk.options,
            result := some r, heap := ir.heap, calls := [] }
    else
      { rc := ir.rc, problem := chk.problem, options := chk.options,
        result := ir.result, heap := ir.heap, calls := [] }
  else
    { rc := chk.rc, problem := chk.problem, options := chk.options,
      result := result, heap := heap, calls := [] }

/-! Helper lemmas about the heap model. -/

theorem Heap.read_alloc_self (h : Heap) (b : List FP) :
    Heap.read (Heap.alloc h b) (Heap.fresh h) = some b := by
  induction h with
  | nil => rfl
  | cons x t ih =>
    simp only [Heap.read, Heap.alloc, Heap.fresh, List.cons_append, List.length_cons] at ih ⊢
    exact ih

theorem Heap.read_alloc_lt (h : Heap) (b : List FP) (a : Addr) (ha : a < h.length) :
    Heap.read (Heap.alloc h b) a = Heap.read h a := by
  induction h generalizing a with
  | nil => exact absurd ha (by simp)
  | cons x t ih =>
    cases a with
    | zero => rfl
    | succ a =>
      have ha2 : a < t.length := by simpa using ha
      simpa [Heap.read, Heap.alloc, List.getD] using ih a ha2

theorem Heap.read_some_lt (h : Heap) (a : Addr) (xs : List FP)
    (hr : Heap.read h a = some xs) : a < h.length := by
  induction h generalizing a with
  | nil => simp [Heap.read, List.getD] at hr
  | cons x t ih =>
    cases a with
    | zero => simp
    | succ a =>
      have := ih a (by simpa [Heap.read, List.getD] using hr)
      simpa using Nat.succ_lt_succ this

/-- `prima_check_problem` never replaces the problem pointee. -/
theorem prima_check_problem_problem_eq (p : Problem) (options : Option Options)
    (use_constr : Bool) (algorithm : Int) :
    (prima_check_problem (some p) options use_constr algorithm).problem = some p := by
  cases options with
  | none => simp only [prima_check_problem]; split_ifs <;> rfl
  | some o => simp only [prima_check_problem]; split_ifs <;> rfl

/-- A zero status from `prima_init_result` means a result pointee is present. -/
theorem prima_init_result_rc_zero_isSome (heap : Heap) (xAllocOk nlAllocOk : Bool)
    (result : Option Result) (problem : Option Problem)
    (h : (prima_init_result heap xAllocOk nlAllocOk result problem).rc = 0) :
    (prima_init_result heap xAllocOk nlAllocOk result problem).result.isSome = true := by
  unfold prima_init_result at h ⊢
  cases result with
  | none => simp at h
  | some r =>
    cases problem with
    | none => simp at h
    | some p =>
      cases hx : p.x0 with
      | none => simp [hx] at h
      | some a0 =>
        simp only [hx] at h ⊢
        split_ifs at h ⊢ <;> simp_all

/-! Sample inputs used by the witnesses below. -/

/-- A minimal valid unconstrained problem: dimension 1, starting point at
heap address 0, objective evaluator present. -/
def pUnc : Problem :=
  { zeroProblem with n := 1, x0 := some 0, calfun := true, f0 := FP.nan }

/-- A one-block heap holding the starting point of `pUnc`. -/
def heap0 : Heap := [some [FP.num 3]]

/-! The claims. -/

/-- C8: `prima_init_problem` zero-initializes the Problem, records the
dimension and sets the cached objective `f0` to the NaN sentinel;
`prima_init_options` zero-initializes the Options with `maxfun = 0`,
`npt = 0`, `rhobeg = rhoend = NaN`, `ftarget = -infinity`; both return
success and have no effect beyond the returned initialized pointee, and
given a null destination they return the corresponding null-problem /
null-options failure status. -/
theorem prima_init_defaults :
    (∀ junk : Problem, ∀ n : Int, prima_init_problem (some junk) n =
      (0, some { n := n, x0 := none, calfun := false, calcfc := false,
                 xl := none, xu := none, m_nlcon := 0, nlconstr0 := none,
                 m_ineq := 0, Aineq := none, bineq := none, m_eq := 0,
                 Aeq := none, beq := none, f0 := FP.nan })) ∧
    (∀ n : Int, prima_init_problem none n = (PRIMA_NULL_PROBLEM, none)) ∧
    (∀ junk : Options, prima_init_options (some junk) =
      (0, some { maxfun := 0, rhobeg := FP.nan, rhoend := FP.nan,
                 iprint := PRIMA_MSG_NONE, ftarget := FP.neginf, npt := 0,
                 data := none, callback := false })) ∧
    (prima_init_options none = (PRIMA_NULL_OPTIONS, none)) :=
  ⟨fun _ _ => rfl, fun _ => rfl, fun _ => rfl, rfl⟩

/-- C10: `prima_init_problem` performs no validation of its dimension
argument: for every integer `n`, zero and negative values included, it
returns success and stores `n` unchanged as the problem dimension. -/
theorem prima_init_problem_no_dimension_validation :
    ∀ n : Int, ∀ junk : Problem,
      (prima_init_problem (some junk) n).1 = 0 ∧
      ((prima_init_problem (some junk) n).2.map Problem.n) = some n :=
  fun _ _ => ⟨rfl, rfl⟩

/-- The status codes `prima_get_rc_string` recognizes. -/
def knownRcCodes : List Int :=
  [PRIMA_SMALL_TR_RADIUS, PRIMA_FTARGET_ACHIEVED, PRIMA_TRSUBP_FAILED,
   PRIMA_MAXFUN_REACHED, PRIMA_MAXTR_REACHED, PRIMA_NAN_INF_X, PRIMA_NAN_INF_F,
   PRIMA_NAN_INF_MODEL, PRIMA_NO_SPACE_BETWEEN_BOUNDS, PRIMA_DAMAGING_ROUNDING,
   PRIMA_ZERO_LINEAR_CONSTRAINT, PRIMA_CALLBACK_TERMINATE, PRIMA_INVALID_INPUT,
   PRIMA_ASSERTION_FAILS, PRIMA_VALIDATION_FAILS, PRIMA_MEMORY_ALLOCATION_FAILS,
   PRIMA_NULL_OPTIONS, PRIMA_NULL_PROBLEM, PRIMA_NULL_X0, PRIMA_NULL_RESULT,
   PRIMA_NULL_FUNCTION, PRIMA_PROBLEM_SOLVER_MISMATCH_NONLINEAR_CONSTRAINTS,
   PRIMA_PROBLEM_SOLVER_MISMATCH_LINEAR_CONSTRAINTS,
   PRIMA_PROBLEM_SOLVER_MISMATCH_BOUNDS]

/-- The static diagnostic strings of `prima_get_rc_string`. -/
def rcStrings : List String :=
  ["Trust region radius reaches its lower bound",
   "The target function value is reached",
   "A trust region step failed to reduce the model",
   "Maximum number of function evaluations reached",
   "Maximum number of trust region iterations reached",
   "The input X contains NaN of Inf",
   "The objective or constraint functions return NaN or +Inf",
   "NaN or Inf occurs in the model",
   "No space between bounds",
   "Rounding errors are becoming damaging",
   "One of the linear constraints has a zero gradient",
   "Callback function requested termination of optimization",
   "Invalid input",
   "Assertion fails",
   "Validation fails",
   "Memory allocation fails",
   "NULL options",
   "NULL problem",
   "NULL x0",
   "NULL result",
   "NULL function",
   "Nonlinear constraints were provided for an algorithm that cannot handle them",
   "Linear constraints were provided for an algorithm that cannot handle them",
   "Bounds were provided for an algorithm that cannot handle them",
   "Invalid return code"]

/-- Unknown codes fall through every branch of the switch. -/
theorem prima_get_rc_string_default (rc : Int) (h : rc ∉ knownRcCodes) :
    prima_get_rc_string rc = "Invalid return code" := by
  simp only [knownRcCodes, List.mem_cons, List.not_mem_nil, or_false, not_or] at h
  obtain ⟨h1, h2, h3, h4, h5, h6, h7, h8, h9, h10, h11, h12, h13, h14, h15, h16, h17, h18, h19, h20, h21, h22, h23, h24⟩ := h
  unfold prima_get_rc_string
  rw [if_neg h1, if_neg h2, if_neg h3, if_neg h4, if_neg h5, if_neg h6, if_neg h7, if_neg h8, if_neg h9, if_neg h10, if_neg h11, if_neg h12, if_neg h13, if_neg h14, if_neg h15, if_neg h16, if_neg h17, if_neg h18, if_neg h19, if_neg h20, if_neg h21, if_neg h22, if_neg h23, if_neg h24]

set_option maxHeartbeats 1000000 in
/-- Every output of `prima_get_rc_string` is one of the static strings. -/
theorem prima_get_rc_string_mem (rc : Int) : prima_get_rc_string rc ∈ rcStrings := by
  by_cases h : rc ∈ knownRcCodes
  · simp only [knownRcCodes, List.mem_cons, List.not_mem_nil, or_false] at h
    rcases h with rfl | rfl | rfl | rfl | rfl | rfl | rfl | rfl | rfl | rfl | rfl |
      rfl | rfl | rfl | rfl | rfl | rfl | rfl | rfl | rfl | rfl | rfl | rfl | rfl <;>
      decide
  · rw [prima_get_rc_string_default rc h]
    decide

set_option maxHeartbeats 1600000 in
/-- C6: `prima_get_rc_string` is a total pure function on integers: every
known status code maps to its specific static diagnostic string, every
other integer maps to the generic "Invalid return code" string, and the
output is always one of the static strings (in particular never absent). -/
theorem prima_get_rc_string_total :
    (∀ rc : Int, prima_get_rc_string rc ∈ rcStrings) ∧
    (∀ rc : Int, rc ∉ knownRcCodes → prima_get_rc_string rc = "Invalid return code") ∧
    prima_get_rc_string PRIMA_SMALL_TR_RADIUS = "Trust region radius reaches its lower bound" ∧
    prima_get_rc_string PRIMA_FTARGET_ACHIEVED = "The target function value is reached" ∧
    prima_get_rc_string PRIMA_TRSUBP_FAILED = "A trust region step failed to reduce the model" ∧
    prima_get_rc_string PRIMA_MAXFUN_REACHED = "Maximum number of function evaluations reached" ∧
    prima_get_rc_string PRIMA_MAXTR_REACHED = "Maximum number of trust region iterations reached" ∧
    prima_get_rc_string PRIMA_NAN_INF_X = "The input X contains NaN of Inf" ∧
    prima_get_rc_string PRIMA_NAN_INF_F = "The objective or constraint functions return NaN or +Inf" ∧
    prima_get_rc_string PRIMA_NAN_INF_MODEL = "NaN or Inf occurs in the model" ∧
    prima_get_rc_string PRIMA_NO_SPACE_BETWEEN_BOUNDS = "No space between bounds" ∧
    prima_get_rc_string PRIMA_DAMAGING_ROUNDING = "Rounding errors are becoming damaging" ∧
    prima_get_rc_string PRIMA_ZERO_LINEAR_CONSTRAINT = "One of the linear constraints has a zero gradient" ∧
    prima_get_rc_string PRIMA_CALLBACK_TERMINATE = "Callback function requested termination of optimization" ∧
    prima_get_rc_string PRIMA_INVALID_INPUT = "Invalid input" ∧
    prima_get_rc_string PRIMA_ASSERTION_FAILS = "Assertion fails" ∧
    prima_get_rc_string PRIMA_VALIDATION_FAILS = "Validation fails" ∧
    prima_get_rc_string PRIMA_MEMORY_ALLOCATION_FAILS = "Memory allocation fails" ∧
    prima_get_rc_string PRIMA_NULL_OPTIONS = "NULL options" ∧
    prima_get_rc_string PRIMA_NULL_PROBLEM = "NULL problem" ∧
    prima_get_rc_string PRIMA_NULL_X0 = "NULL x0" ∧
    prima_get_rc_string PRIMA_NULL_RESULT = "NULL result" ∧
    prima_get_rc_string PRIMA_NULL_FUNCTION = "NULL function" ∧
    prima_get_rc_string PRIMA_PROBLEM_SOLVER_MISMATCH_NONLINEAR_CONSTRAINTS =
      "Nonlinear constraints were provided for an algorithm that cannot handle them" ∧
    prima_get_rc_string PRIMA_PROBLEM_SOLVER_MISMATCH_LINEAR_CONSTRAINTS =
      "Linear constraints were provided for an algorithm that cannot handle them" ∧
    prima_get_rc_string PRIMA_PROBLEM_SOLVER_MISMATCH_BOUNDS =
      "Bounds were provided for an algorithm that cannot handle them" := by
  refine ⟨prima_get_rc_string_mem, prima_get_rc_string_default, by rfl, by rfl,
    by rfl, by rfl, by rfl, by rfl, by rfl, by rfl, by rfl, by rfl, by rfl,
    by rfl, by rfl, by rfl, by rfl, by rfl, by rfl, by rfl, by rfl, by rfl,
    by rfl, by rfl, by rfl, by rfl⟩

/-- C6 witness: an integer outside the known enumeration maps to the
generic string. -/
theorem prima_get_rc_string_total_witness :
    (99 : Int) ∉ knownRcCodes ∧ prima_get_rc_string 99 = "Invalid return code" :=
  ⟨by decide, prima_get_rc_string_total.2.1 99 (by decide)⟩

/-- C3: when `prima_check_problem` succeeds it applies defaults in place:
`maxfun` becomes `500*n` exactly when it was zero and `npt` becomes
`2*n+1` exactly when it was zero; every other Options field and the
whole Problem are left unchanged (in particular the `rhobeg`/`rhoend`
NaN sentinels). -/
theorem prima_check_problem_defaults (p : Problem) (o : Options)
    (use_constr : Bool) (algorithm : Int)
    (h : (prima_check_problem (some p) (some o) use_constr algorithm).rc = 0) :
    (prima_check_problem (some p) (some o) use_constr algorithm).problem = some p ∧
    ∃ o2, (prima_check_problem (some p) (some o) use_constr algorithm).options = some o2 ∧
      (o.maxfun = 0 → o2.maxfun = MAXFUN_DIM_DFT * p.n) ∧
      (o.maxfun ≠ 0 → o2.maxfun = o.maxfun) ∧
      (o.npt = 0 → o2.npt = 2 * p.n + 1) ∧
      (o.npt ≠ 0 → o2.npt = o.npt) ∧
      o2.rhobeg = o.rhobeg ∧ o2.rhoend = o.rhoend ∧ o2.iprint = o.iprint ∧
      o2.ftarget = o.ftarget ∧ o2.data = o.data ∧ o2.callback = o.callback := by
  simp only [prima_check_problem] at h ⊢
  by_cases c1 : (algorithm != PRIMA_COBYLA && hasNonlinear p) = true
  · rw [if_pos c1] at h; simp at h
  rw [if_neg c1] at h ⊢
  by_cases c2 : ((algorithm != PRIMA_COBYLA && algorithm != PRIMA_LINCOA) && hasLinear p) = true
  · rw [if_pos c2] at h; simp at h
  rw [if_neg c2] at h ⊢
  by_cases c3 : ((algorithm != PRIMA_COBYLA && algorithm != PRIMA_LINCOA &&
      algorithm != PRIMA_BOBYQA) && hasBounds p) = true
  · rw [if_pos c3] at h; simp at h
  rw [if_neg c3] at h ⊢
  by_cases c4 : p.x0.isNone = true
  · rw [if_pos c4] at h; simp at h
  rw [if_neg c4] at h ⊢
  by_cases c5 : ((use_constr && !p.calcfc) || (!use_constr && !p.calfun)) = true
  · rw [if_pos c5] at h; simp at h
  rw [if_neg c5] at h ⊢
  refine ⟨rfl, ?_⟩
  by_cases hm : o.maxfun = 0 <;> by_cases hn : o.npt = 0 <;> simp [hm, hn]

/-- C3 witness: freshly initialized options validated for NEWUOA on a
minimal valid 1-dimensional problem get `maxfun = 500` and `npt = 3`. -/
theorem prima_check_problem_defaults_witness :
    (prima_check_problem (some pUnc) (some defaultOptions) false PRIMA_NEWUOA).rc = 0 ∧
    ((prima_check_problem (some pUnc) (some defaultOptions) false PRIMA_NEWUOA).problem = some pUnc ∧
     ∃ o2, (prima_check_problem (some pUnc) (some defaultOptions) false PRIMA_NEWUOA).options = some o2 ∧
      (defaultOptions.maxfun = 0 → o2.maxfun = MAXFUN_DIM_DFT * pUnc.n) ∧
      (defaultOptions.maxfun ≠ 0 → o2.maxfun = defaultOptions.maxfun) ∧
      (defaultOptions.npt = 0 → o2.npt = 2 * pUnc.n + 1) ∧
      (defaultOptions.npt ≠ 0 → o2.npt = defaultOptions.npt) ∧
      o2.rhobeg = defaultOptions.rhobeg ∧ o2.rhoend = defaultOptions.rhoend ∧
      o2.iprint = defaultOptions.iprint ∧ o2.ftarget = defaultOptions.ftarget ∧
      o2.data = defaultOptions.data ∧ o2.callback = defaultOptions.callback) :=
  ⟨by decide, prima_check_problem_defaults pUnc defaultOptions false PRIMA_NEWUOA (by decide)⟩

/-- C5 counterexample: `prima_free_result` does not zero the recorded
nonlinear-constraint count unconditionally — on a Result whose
nonlinear-constraint buffer is already absent but whose recorded count
is 7, the count stays 7 after the call. -/
theorem prima_free_result_count_counterexample :
    (prima_free_result [] (some { zeroResult with m_nlcon := 7 })).rc = 0 ∧
    (prima_free_result [] (some { zeroResult with m_nlcon := 7 })).result =
      some { zeroResult with m_nlcon := 7 } ∧
    ({ zeroResult with m_nlcon := 7 } : Result).m_nlcon ≠ 0 := by decide

/-- C5 (amended): `prima_free_result` on a non-null Result frees the
solution and nonlinear-constraint buffers if present, nulls both pointer
fields, and zeroes the recorded nonlinear-constraint count whenever the
nonlinear-constraint buffer was present (a Result whose buffer is
already absent keeps its recorded count); it returns success and is
idempotent: a second call on the released Result is a no-op returning
success. -/
theorem prima_free_result_idempotent (heap : Heap) (r : Result) :
    (prima_free_result heap (some r)).rc = 0 ∧
    (∀ r1, (prima_free_result heap (some r)).result = some r1 →
      r1.x = none ∧ r1.nlconstr = none ∧
      (r.nlconstr.isSome = true → r1.m_nlcon = 0) ∧
      (r.nlconstr = none → r1.m_nlcon = r.m_nlcon) ∧
      prima_free_result (prima_free_result heap (some r)).heap
          ((prima_free_result heap (some r)).result) =
        { rc := 0, result := (prima_free_result heap (some r)).result,
          heap := (prima_free_result heap (some r)).heap }) := by
  rcases hnl : r.nlconstr with _ | a <;> rcases hx : r.x with _ | b <;>
    simp [prima_free_result, hnl, hx]

/-- C5 witness: creating a Result for a minimal problem and releasing it
leaves a state where a second release is a safe no-op. -/
theorem prima_free_result_idempotent_witness :
    (prima_free_result heap0 (some { zeroResult with x := some 1 })).result =
      some zeroResult ∧
    ((prima_free_result heap0 (some { zeroResult with x := some 1 })).rc = 0 ∧
      zeroResult.x = none ∧ zeroResult.nlconstr = none) :=
  ⟨by decide,
   (prima_free_result_idempotent heap0 { zeroResult with x := some 1 }).1,
   ((prima_free_result_idempotent heap0 { zeroResult with x := some 1 }).2
      zeroResult (by decide)).1,
   ((prima_free_result_idempotent heap0 { zeroResult with x := some 1 }).2
      zeroResult (by decide)).2.1⟩

/-- C7: once the three capability checks pass, the setup-error checks of
`prima_check_problem` run in the fixed order missing-options, then
missing-x0, then missing required evaluator (the constrained evaluator
when the constrained flag is set, the objective evaluator otherwise),
each returning its specific status; and any nonzero validator status
makes `prima_minimize` return before any solver-engine invocation. -/
theorem prima_check_problem_setup_order (p : Problem)
    (use_constr : Bool) (algorithm : Int)
    (h1 : (algorithm != PRIMA_COBYLA && hasNonlinear p) = false)
    (h2 : ((algorithm != PRIMA_COBYLA && algorithm != PRIMA_LINCOA) && hasLinear p) = false)
    (h3 : ((algorithm != PRIMA_COBYLA && algorithm != PRIMA_LINCOA &&
        algorithm != PRIMA_BOBYQA) && hasBounds p) = false) :
    ((prima_check_problem (some p) none use_constr algorithm).rc = PRIMA_NULL_OPTIONS) ∧
    (∀ o : Options, p.x0 = none →
      (prima_check_problem (some p) (some o) use_constr algorithm).rc = PRIMA_NULL_X0) ∧
    (∀ o : Options, p.x0.isSome = true →
      ((use_constr && !p.calcfc) || (!use_constr && !p.calfun)) = true →
      (prima_check_problem (some p) (some o) use_constr algorithm).rc = PRIMA_NULL_FUNCTION) ∧
    (∀ opts : Option Options, ∀ engine : Engine → EngineOutcome, ∀ heap : Heap,
      ∀ xOk nlOk : Bool, ∀ result : Option Result,
      (prima_check_problem (some p) opts (algorithm == PRIMA_COBYLA) algorithm).rc ≠ 0 →
      (prima_minimize engine heap xOk nlOk algorithm (some p) opts result).calls = []) := by
  refine ⟨?_, ?_, ?_, ?_⟩
  · simp [prima_check_problem, h1, h2, h3]
  · intro o hx0
    simp [prima_check_problem, h1, h2, h3, hx0, Option.isNone_iff_eq_none]
  · intro o hx0 hfn
    have hx0n : p.x0.isNone = false := by
      rcases hx : p.x0 with _ | a
      · rw [hx] at hx0; simp at hx0
      · simp [hx]
    simp [prima_check_problem, h1, h2, h3, hx0n, hfn]
  · intro opts engine heap xOk nlOk result hrc
    simp [prima_minimize, hrc]

/-- A problem with no features, no starting point and no evaluator
(the state `prima_init_problem` leaves at dimension 1). -/
def pBare : Problem := { zeroProblem with n := 1, f0 := FP.nan }

/-- C7 witness: on a bare problem validated for NEWUOA, the capability
checks pass and a null options pointer yields the missing-options
status. -/
theorem prima_check_problem_setup_order_witness :
    ((PRIMA_NEWUOA != PRIMA_COBYLA && hasNonlinear pBare) = false ∧
     ((PRIMA_NEWUOA != PRIMA_COBYLA && PRIMA_NEWUOA != PRIMA_LINCOA) && hasLinear pBare) = false ∧
     ((PRIMA_NEWUOA != PRIMA_COBYLA && PRIMA_NEWUOA != PRIMA_LINCOA &&
        PRIMA_NEWUOA != PRIMA_BOBYQA) && hasBounds pBare) = false) ∧
    (prima_check_problem (some pBare) none false PRIMA_NEWUOA).rc = PRIMA_NULL_OPTIONS :=
  ⟨⟨by decide, by decide, by decide⟩,
   (prima_check_problem_setup_order pBare false PRIMA_NEWUOA
      (by decide) (by decide) (by decide)).1⟩

theorem Heap.length_alloc (h : Heap) (b : List FP) :
    (Heap.alloc h b).length = h.length + 1 := by
  simp [Heap.alloc]

/-- C4: `prima_init_result` on a non-null result and a problem whose
`x0` is a live buffer allocates a fresh solution buffer (a new address,
never `x0`'s) holding a copy of `x0`'s contents and leaves `x0`'s buffer
unchanged; a zero-filled nonlinear-constraint buffer of length `m_nlcon`
is allocated exactly when `m_nlcon > 0`; when the first allocation fails
the call returns the memory-allocation-failure status with the zeroed
Result, when the second fails the solution buffer stays attached, and in
both cases `prima_free_result` on the returned Result succeeds. -/
theorem prima_init_result_lifecycle (heap : Heap) (p : Problem) (r : Result)
    (a0 : Addr) (xs : List FP)
    (hx0 : p.x0 = some a0) (hblk : Heap.read heap a0 = some xs)
    (hlen : xs.length = p.n.toNat) :
    ((prima_init_result heap true true (some r) (some p)).rc = 0 ∧
     ∃ r2, (prima_init_result heap true true (some r) (some p)).result = some r2 ∧
       r2.x = some (Heap.fresh heap) ∧
       Heap.fresh heap ≠ a0 ∧
       Heap.read (prima_init_result heap true true (some r) (some p)).heap
         (Heap.fresh heap) = some xs ∧
       Heap.read (prima_init_result heap true true (some r) (some p)).heap a0 = some xs ∧
       (¬ 0 < p.m_nlcon → r2.nlconstr = none) ∧
       (0 < p.m_nlcon → ∃ b, r2.nlconstr = some b ∧ b ≠ Heap.fresh heap ∧ b ≠ a0 ∧
         Heap.read (prima_init_result heap true true (some r) (some p)).heap b =
           some (List.replicate p.m_nlcon.toNat (FP.num 0)))) ∧
    (∀ nlOk : Bool,
      (prima_init_result heap false nlOk (some r) (some p)).rc =
        PRIMA_MEMORY_ALLOCATION_FAILS ∧
      (prima_init_result heap false nlOk (some r) (some p)).result = some zeroResult ∧
      (prima_free_result (prima_init_result heap false nlOk (some r) (some p)).heap
        (prima_init_result heap false nlOk (some r) (some p)).result).rc = 0) ∧
    (0 < p.m_nlcon →
      (prima_init_result heap true false (some r) (some p)).rc =
        PRIMA_MEMORY_ALLOCATION_FAILS ∧
      ∃ r2, (prima_init_result heap true false (some r) (some p)).result = some r2 ∧
        r2.x = some (Heap.fresh heap) ∧ r2.nlconstr = none ∧
        (prima_free_result (prima_init_result heap true false (some r) (some p)).heap
          (prima_init_result heap true false (some r) (some p)).result).rc = 0) := by
  have ha0lt : a0 < heap.length := Heap.read_some_lt heap a0 xs hblk
  have htake : xs.take p.n.toNat = xs := by
    rw [← hlen]; exact List.take_length xs
  have hgetd : (Heap.read heap a0).getD [] = xs := by rw [hblk]; rfl
  have hne0 : Heap.fresh heap ≠ a0 := (Nat.ne_of_lt ha0lt).symm
  have hlt1 : Heap.fresh heap < (Heap.alloc heap xs).length := by
    rw [Heap.length_alloc]; exact Nat.lt_succ_self _
  have ha0lt1 : a0 < (Heap.alloc heap xs).length := by
    rw [Heap.length_alloc]; exact Nat.lt_succ_of_lt ha0lt
  have hne1 : Heap.fresh (Heap.alloc heap xs) ≠ Heap.fresh heap := by
    show (Heap.alloc heap xs).length ≠ heap.length
    rw [Heap.length_alloc]; exact Nat.succ_ne_self _
  have hne2 : Heap.fresh (Heap.alloc heap xs) ≠ a0 := by
    show (Heap.alloc heap xs).length ≠ a0
    rw [Heap.length_alloc]; exact (Nat.ne_of_lt (Nat.lt_succ_of_lt ha0lt)).symm
  refine ⟨?_, ?_, ?_⟩
  · simp only [prima_init_result, hx0, Bool.not_true, hgetd, htake]
    by_cases hnl : p.m_nlcon > 0
    · rw [if_neg (by simp), if_pos hnl, if_neg (by simp)]
      refine ⟨rfl, _, rfl, rfl, hne0, ?_, ?_, by simp [hnl], fun _ => ?_⟩
      · rw [Heap.read_alloc_lt (Heap.alloc heap xs) _ (Heap.fresh heap) hlt1]
        exact Heap.read_alloc_self heap xs
      · rw [Heap.read_alloc_lt (Heap.alloc heap xs) _ a0 ha0lt1,
          Heap.read_alloc_lt heap xs a0 ha0lt]
        exact hblk
      · exact ⟨Heap.fresh (Heap.alloc heap xs), rfl, hne1, hne2,
          Heap.read_alloc_self (Heap.alloc heap xs) _⟩
    · rw [if_neg (by simp), if_neg hnl]
      refine ⟨rfl, _, rfl, rfl, hne0, ?_, ?_, fun _ => rfl, fun hc => absurd hc hnl⟩
      · exact Heap.read_alloc_self heap xs
      · rw [Heap.read_alloc_lt heap xs a0 ha0lt]; exact hblk
  · intro nlOk
    simp only [prima_init_result, hx0]
    rw [if_pos (by simp)]
    exact ⟨rfl, rfl, by simp [prima_free_result, zeroResult]⟩
  · intro hnl
    simp only [prima_init_result, hx0, Bool.not_true, hgetd, htake]
    rw [if_neg (by simp), if_pos hnl, if_pos (by simp)]
    refine ⟨rfl, _, rfl, rfl, rfl, ?_⟩
    simp [prima_free_result, zeroResult, Heap.free]

/-- A 2-dimensional problem with one nonlinear constraint, starting
point at heap address 0. -/
def pCon : Problem :=
  { zeroProblem with n := 2, x0 := some 0, calcfc := true, m_nlcon := 1, f0 := FP.nan }

/-- The starting point of `pCon`. -/
def xsCon : List FP := [FP.num 1, FP.num 2]

/-- A heap holding only the starting point of `pCon`. -/
def heapCon : Heap := [some xsCon]

/-- C4 witness: creating a Result for `pCon` with both allocations
succeeding returns success. -/
theorem prima_init_result_lifecycle_witness :
    (pCon.x0 = some 0 ∧ Heap.read heapCon 0 = some xsCon ∧
      xsCon.length = pCon.n.toNat) ∧
    (prima_init_result heapCon true true (some zeroResult) (some pCon)).rc = 0 :=
  ⟨⟨by decide, by decide, by decide⟩,
   (prima_init_result_lifecycle heapCon pCon zeroResult 0 xsCon
      (by decide) (by decide) (by decide)).1.1⟩

/-- The closed 5-way algorithm enumeration of `prima_algorithm_t`. -/
def primaAlgorithms : List Int :=
  [PRIMA_BOBYQA, PRIMA_COBYLA, PRIMA_LINCOA, PRIMA_NEWUOA, PRIMA_UOBYQA]

/-- Capability table as the spec words it (nonlinear constraints):
only COBYLA accepts them.  This is the spec-side definition the
validator is compared against. -/
def specCapNonlinear (alg : Int) : Bool := alg == PRIMA_COBYLA

/-- Capability table as the spec words it (linear constraints): COBYLA
and LINCOA accept them. -/
def specCapLinear (alg : Int) : Bool := alg == PRIMA_COBYLA || alg == PRIMA_LINCOA

/-- Capability table as the spec words it (bounds): COBYLA, LINCOA and
BOBYQA accept them. -/
def specCapBounds (alg : Int) : Bool :=
  alg == PRIMA_COBYLA || alg == PRIMA_LINCOA || alg == PRIMA_BOBYQA

/-- C1: for every algorithm of the closed enumeration and every
combination of present/absent bounds, linear constraints and nonlinear
constraints (with the setup inputs valid), `prima_check_problem` accepts
iff the present features are a subset of the algorithm's capability set,
and a rejected combination yields the specific mismatch status fixed by
the order nonlinear constraints, then linear constraints, then bounds —
never a generic failure. -/
theorem prima_check_problem_capabilities (alg : Int) (p : Problem) (o : Options)
    (halg : alg ∈ primaAlgorithms)
    (hx0 : p.x0.isSome = true)
    (hfn : (if alg = PRIMA_COBYLA then p.calcfc else p.calfun) = true) :
    ((prima_check_problem (some p) (some o) (alg == PRIMA_COBYLA) alg).rc = 0 ↔
      ((hasNonlinear p = true → specCapNonlinear alg = true) ∧
       (hasLinear p = true → specCapLinear alg = true) ∧
       (hasBounds p = true → specCapBounds alg = true))) ∧
    (hasNonlinear p = true → specCapNonlinear alg = false →
      (prima_check_problem (some p) (some o) (alg == PRIMA_COBYLA) alg).rc =
        PRIMA_PROBLEM_SOLVER_MISMATCH_NONLINEAR_CONSTRAINTS) ∧
    ((hasNonlinear p = true → specCapNonlinear alg = true) →
      hasLinear p = true → specCapLinear alg = false →
      (prima_check_problem (some p) (some o) (alg == PRIMA_COBYLA) alg).rc =
        PRIMA_PROBLEM_SOLVER_MISMATCH_LINEAR_CONSTRAINTS) ∧
    ((hasNonlinear p = true → specCapNonlinear alg = true) →
      (hasLinear p = true → specCapLinear alg = true) →
      hasBounds p = true → specCapBounds alg = false →
      (prima_check_problem (some p) (some o) (alg == PRIMA_COBYLA) alg).rc =
        PRIMA_PROBLEM_SOLVER_MISMATCH_BOUNDS) := by
  have hx0n : p.x0.isNone = false := by
    rcases hx : p.x0 with _ | a
    · rw [hx] at hx0; simp at hx0
    · simp [hx]
  simp only [primaAlgorithms, List.mem_cons, List.not_mem_nil, or_false] at halg
  rcases halg with rfl | rfl | rfl | rfl | rfl <;>
    simp only [PRIMA_BOBYQA, PRIMA_COBYLA, PRIMA_LINCOA, PRIMA_NEWUOA,
      PRIMA_UOBYQA, Int.reduceEq, reduceIte] at hfn <;>
    cases hN : hasNonlinear p <;> cases hL : hasLinear p <;> cases hB : hasBounds p <;>
      simp [prima_check_problem, specCapNonlinear, specCapLinear, specCapBounds,
        PRIMA_BOBYQA, PRIMA_COBYLA, PRIMA_LINCOA, PRIMA_NEWUOA, PRIMA_UOBYQA,
        hN, hL, hB, hx0n, hfn]

/-- A problem carrying bounds and a linear system, for validation
against an algorithm that supports neither. -/
def pLinB : Problem :=
  { zeroProblem with
    n := 1, x0 := some 0, calfun := true, m_ineq := 1, xl := some 1, f0 := FP.nan }

/-- C1 witness: NEWUOA with both linear constraints and bounds present
is rejected with the linear-constraint mismatch (the earlier check in
the fixed order), not the bounds one. -/
theorem prima_check_problem_capabilities_witness :
    (PRIMA_NEWUOA ∈ primaAlgorithms ∧ pLinB.x0.isSome = true ∧
      (if PRIMA_NEWUOA = PRIMA_COBYLA then pLinB.calcfc else pLinB.calfun) = true) ∧
    (prima_check_problem (some pLinB) (some defaultOptions)
        (PRIMA_NEWUOA == PRIMA_COBYLA) PRIMA_NEWUOA).rc =
      PRIMA_PROBLEM_SOLVER_MISMATCH_LINEAR_CONSTRAINTS :=
  ⟨⟨by decide, by decide, by decide⟩,
   (prima_check_problem_capabilities PRIMA_NEWUOA pLinB defaultOptions
      (by decide) (by decide) (by decide)).2.2.1 (by decide) (by decide) (by decide)⟩

/-- C2: on inputs that pass validation and result creation, an algorithm
identifier outside the closed enumeration makes `prima_minimize` return
the invalid-input status with no engine invoked, and every identifier
inside the enumeration leads to exactly one engine invocation. -/
theorem prima_minimize_dispatch (engine : Engine → EngineOutcome) (heap : Heap)
    (xOk nlOk : Bool) (alg : Int) (p : Problem) (o : Options) (r : Result)
    (hchk : (prima_check_problem (some p) (some o) (alg == PRIMA_COBYLA) alg).rc = 0)
    (hir : (prima_init_result heap xOk nlOk (some r) (some p)).rc = 0) :
    (alg ∉ primaAlgorithms →
      (prima_minimize engine heap xOk nlOk alg (some p) (some o) (some r)).rc =
        PRIMA_INVALID_INPUT ∧
      (prima_minimize engine heap xOk nlOk alg (some p) (some o) (some r)).calls = []) ∧
    (alg ∈ primaAlgorithms →
      (prima_minimize engine heap xOk nlOk alg (some p) (some o) (some r)).calls.length = 1) := by
  have hprob := prima_check_problem_problem_eq p (some o) (alg == PRIMA_COBYLA) alg
  have hsome := prima_init_result_rc_zero_isSome heap xOk nlOk (some r) (some p) hir
  rw [Option.isSome_iff_exists] at hsome
  obtain ⟨r2, hr2⟩ := hsome
  simp only [prima_minimize, hprob, hr2, if_pos hchk, if_pos hir]
  constructor
  · intro halg
    simp only [primaAlgorithms, List.mem_cons, List.not_mem_nil, or_false, not_or] at halg
    obtain ⟨g0, g1, g2, g3, g4⟩ := halg
    rw [if_neg g0, if_neg g1, if_neg g2, if_neg g3, if_neg g4]
    exact ⟨rfl, rfl⟩
  · intro halg
    simp only [primaAlgorithms, List.mem_cons, List.not_mem_nil, or_false] at halg
    rcases halg with rfl | rfl | rfl | rfl | rfl <;>
      simp [PRIMA_BOBYQA, PRIMA_COBYLA, PRIMA_LINCOA, PRIMA_NEWUOA, PRIMA_UOBYQA]

/-- An engine oracle whose every call reports immediate success with
zero outputs. -/
def engine0 : Engine → EngineOutcome :=
  fun _ => { info := 0, f := FP.num 0, cstrv := FP.num 0, nf := 0,
             xOut := [], nlconstrOut := [] }

/-- C2 witness: a valid unconstrained problem dispatched to UOBYQA
produces exactly one engine call. -/
theorem prima_minimize_dispatch_witness :
    ((prima_check_problem (some pUnc) (some defaultOptions)
        (PRIMA_UOBYQA == PRIMA_COBYLA) PRIMA_UOBYQA).rc = 0 ∧
     (prima_init_result heap0 true true (some zeroResult) (some pUnc)).rc = 0) ∧
    (PRIMA_UOBYQA ∈ primaAlgorithms →
      (prima_minimize engine0 heap0 true true PRIMA_UOBYQA (some pUnc)
          (some defaultOptions) (some zeroResult)).calls.length = 1) :=
  ⟨⟨by decide, by decide⟩,
   (prima_minimize_dispatch engine0 heap0 true true PRIMA_UOBYQA pUnc
      defaultOptions zeroResult (by decide) (by decide)).2⟩

/-- C9: with valid inputs and a live starting point, an algorithm
identifier outside the enumeration makes `prima_minimize` return the
invalid-input status only after the Result buffers were allocated (the
solution buffer holds a copy of x0) while `status` and `message` keep
their zero-initialized values (0 and null), with no engine call; the
caller must still free the Result, and that free succeeds. -/
theorem prima_minimize_invalid_algorithm (engine : Engine → EngineOutcome)
    (heap : Heap) (alg : Int) (p : Problem) (o : Options) (r : Result)
    (a0 : Addr) (xs : List FP)
    (halg : alg ∉ primaAlgorithms)
    (hchk : (prima_check_problem (some p) (some o) (alg == PRIMA_COBYLA) alg).rc = 0)
    (hx0 : p.x0 = some a0) (hblk : Heap.read heap a0 = some xs) :
    (prima_minimize engine heap true true alg (some p) (some o) (some r)).rc =
      PRIMA_INVALID_INPUT ∧
    (prima_minimize engine heap true true alg (some p) (some o) (some r)).calls = [] ∧
    ∃ r2, (prima_minimize engine heap true true alg (some p) (some o) (some r)).result =
        some r2 ∧
      r2.status = 0 ∧ r2.message = none ∧ r2.x = some (Heap.fresh heap) ∧
      Heap.read (prima_minimize engine heap true true alg (some p) (some o) (some r)).heap
        (Heap.fresh heap) = some (xs.take p.n.toNat) ∧
      (prima_free_result
        (prima_minimize engine heap true true alg (some p) (some o) (some r)).heap
        ((prima_minimize engine heap true true alg (some p) (some o)
          (some r)).result)).rc = 0 := by
  have hprob := prima_check_problem_problem_eq p (some o) (alg == PRIMA_COBYLA) alg
  have ha0lt : a0 < heap.length := Heap.read_some_lt heap a0 xs hblk
  have hgetd : (Heap.read heap a0).getD [] = xs := by rw [hblk]; rfl
  have hlt1 : Heap.fresh heap < (Heap.alloc heap (xs.take p.n.toNat)).length := by
    rw [Heap.length_alloc]; exact Nat.lt_succ_self _
  simp only [primaAlgorithms, List.mem_cons, List.not_mem_nil, or_false, not_or] at halg
  obtain ⟨g0, g1, g2, g3, g4⟩ := halg
  by_cases hnl : p.m_nlcon > 0
  · have hir_eq : prima_init_result heap true true (some r) (some p) =
        { rc := 0,
          result := some { zeroResult with
            x := some (Heap.fresh heap),
            nlconstr := some (Heap.fresh (Heap.alloc heap (xs.take p.n.toNat))) },
          heap := Heap.alloc (Heap.alloc heap (xs.take p.n.toNat))
            (List.replicate p.m_nlcon.toNat (FP.num 0)) } := by
      simp only [prima_init_result, hx0, Bool.not_true, hgetd]
      rw [if_neg (by simp), if_pos hnl, if_neg (by simp)]
    have hirrc : (prima_init_result heap true true (some r) (some p)).rc = 0 := by
      rw [hir_eq]
    have hirres : (prima_init_result heap true true (some r) (some p)).result =
        some { zeroResult with
          x := some (Heap.fresh heap),
          nlconstr := some (Heap.fresh (Heap.alloc heap (xs.take p.n.toNat))) } := by
      rw [hir_eq]
    have hirheap : (prima_init_result heap true true (some r) (some p)).heap =
        Heap.alloc (Heap.alloc heap (xs.take p.n.toNat))
          (List.replicate p.m_nlcon.toNat (FP.num 0)) := by
      rw [hir_eq]
    simp only [prima_minimize, hprob, if_pos hchk, if_pos hirrc, hirres, hirheap]
    rw [if_neg g0, if_neg g1, if_neg g2, if_neg g3, if_neg g4]
    refine ⟨rfl, rfl, _, rfl, rfl, rfl, rfl, ?_, ?_⟩
    · rw [Heap.read_alloc_lt (Heap.alloc heap (xs.take p.n.toNat)) _ (Heap.fresh heap) hlt1]
      exact Heap.read_alloc_self heap (xs.take p.n.toNat)
    · simp [prima_free_result, zeroResult, Heap.free]
  · have hir_eq : prima_init_result heap true true (some r) (some p) =
        { rc := 0,
          result := some { zeroResult with x := some (Heap.fresh heap) },
          heap := Heap.alloc heap (xs.take p.n.toNat) } := by
      simp only [prima_init_result, hx0, Bool.not_true, hgetd]
      rw [if_neg (by simp), if_neg hnl]
    have hirrc : (prima_init_result heap true true (some r) (some p)).rc = 0 := by
      rw [hir_eq]
    have hirres : (prima_init_result heap true true (some r) (some p)).result =
        some { zeroResult with x := some (Heap.fresh heap) } := by
      rw [hir_eq]
    have hirheap : (prima_init_result heap true true (some r) (some p)).heap =
        Heap.alloc heap (xs.take p.n.toNat) := by
      rw [hir_eq]
    simp only [prima_minimize, hprob, if_pos hchk, if_pos hirrc, hirres, hirheap]
    rw [if_neg g0, if_neg g1, if_neg g2, if_neg g3, if_neg g4]
    refine ⟨rfl, rfl, _, rfl, rfl, rfl, rfl, ?_, ?_⟩
    · exact Heap.read_alloc_self heap (xs.take p.n.toNat)
    · simp [prima_free_result, zeroResult, Heap.free]

/-- C9 witness: algorithm identifier 7 on a valid problem returns the
invalid-input status. -/
theorem prima_minimize_invalid_algorithm_witness :
    ((7 : Int) ∉ primaAlgorithms ∧
     (prima_check_problem (some pUnc) (some defaultOptions)
        ((7 : Int) == PRIMA_COBYLA) 7).rc = 0 ∧
     pUnc.x0 = some 0 ∧ Heap.read heap0 0 = some [FP.num 3]) ∧
    (prima_minimize engine0 heap0 true true 7 (some pUnc) (some defaultOptions)
        (some zeroResult)).rc = PRIMA_INVALID_INPUT :=
  ⟨⟨by decide, by decide, by decide, by decide⟩,
   (prima_minimize_invalid_algorithm engine0 heap0 7 pUnc defaultOptions zeroResult
      0 [FP.num 3] (by decide) (by decide) (by decide) (by decide)).1⟩

end Prima
